import Mathlib

/-!
Shallow embedding of the per-frame rendering core of the Vulkan-SDL3 engine
(`VulkanEngine::render`, `VulkanSynchronization`, `VulkanSwapchain` parameter
choice, `VulkanBuffer::findMemoryType`, `VulkanCommandPool::bindVertexBuffers`).

Backend (Vulkan driver) outcomes — fence waits on the GPU, image acquisition,
queue submission, presentation — are external to the program; they are supplied
as explicit `VkResult` parameters.  Opaque Vulkan handles (semaphores, command
buffers) are modelled as natural numbers.  Wall-clock timing
(`m_lastFrameTime`) and log output are not modelled.
-/

set_option maxRecDepth 4000
set_option linter.unusedVariables false

/-- The subset of `VkResult` values the core distinguishes
(`VK_SUCCESS`, `VK_SUBOPTIMAL_KHR`, `VK_TIMEOUT`, `VK_ERROR_OUT_OF_DATE_KHR`,
plus a bucket for every other non-success code such as device loss). -/
inductive VkResult where
  | success
  | suboptimalKHR
  | timeout
  | errorOutOfDateKHR
  | errorDeviceLost
  | errorOther
deriving DecidableEq, Repr

/-- The `VkPresentModeKHR` values mentioned by `VulkanSwapchain::choosePresentMode`. -/
inductive VkPresentModeKHR where
  | immediateKHR
  | mailboxKHR
  | fifoKHR
  | fifoRelaxedKHR
deriving DecidableEq, Repr

/-- `VkSurfaceCapabilitiesKHR`, restricted to the fields `chooseImageCount` reads. -/
structure VkSurfaceCapabilitiesKHR where
  minImageCount : Nat
  maxImageCount : Nat
deriving DecidableEq, Repr

/-- One entry of `VkPhysicalDeviceMemoryProperties::memoryTypes`. -/
structure VkMemoryType where
  propertyFlags : Nat
  heapIndex : Nat
deriving DecidableEq, Repr, Inhabited

/-- `VulkanSwapchain::choosePresentMode` (VulkanSwapchain.cpp:217-248): scan the
available modes for `VK_PRESENT_MODE_MAILBOX_KHR`, then for
`VK_PRESENT_MODE_IMMEDIATE_KHR`, and fall back to `VK_PRESENT_MODE_FIFO_KHR`. -/
def choosePresentMode (availablePresentModes : List VkPresentModeKHR) : VkPresentModeKHR :=
  match availablePresentModes.find? (fun m => m = VkPresentModeKHR.mailboxKHR) with
  | some m => m
  | none =>
    match availablePresentModes.find? (fun m => m = VkPresentModeKHR.immediateKHR) with
    | some m => m
    | none => VkPresentModeKHR.fifoKHR

/-- `VulkanSwapchain::chooseImageCount` (VulkanSwapchain.cpp:285-305):
`minImageCount + 1`, clamped to `maxImageCount` unless that maximum is 0 ("no limit"). -/
def chooseImageCount (capabilities : VkSurfaceCapabilitiesKHR) : Nat :=
  let imageCount := capabilities.minImageCount + 1
  if capabilities.maxImageCount > 0 ∧ imageCount > capabilities.maxImageCount then
    capabilities.maxImageCount
  else
    imageCount

/-- The loop body of `VulkanBuffer::findMemoryType` (VulkanBuffer.cpp:332-347):
`i` is the index of the head of `memoryTypes` within the device's full list.
A type is taken when bit `i` of `typeFilter` is set and its property flags
contain every requested property flag. -/
def findMemoryTypeLoop (memoryTypes : List VkMemoryType)
    (typeFilter properties i : Nat) : Except String Nat :=
  match memoryTypes with
  | [] => Except.error "Failed to find suitable memory type for buffer"
  | t :: rest =>
    if typeFilter &&& (1 <<< i) ≠ 0 ∧ t.propertyFlags &&& properties = properties then
      Except.ok i
    else
      findMemoryTypeLoop rest typeFilter properties (i + 1)

/-- `VulkanBuffer::findMemoryType` (VulkanBuffer.cpp:321-350): first-fit search
over the device's memory types; throws when no type matches. -/
def findMemoryType (memoryTypes : List VkMemoryType)
    (typeFilter properties : Nat) : Except String Nat :=
  findMemoryTypeLoop memoryTypes typeFilter properties 0

/-- The condition of `findMemoryType`'s loop at index `i`:
`(typeFilter & (1 << i)) != 0 && (memoryTypes[i].propertyFlags & properties) == properties`. -/
def memoryTypeMatches (memoryTypes : List VkMemoryType)
    (typeFilter properties i : Nat) : Prop :=
  typeFilter &&& (1 <<< i) ≠ 0 ∧
    (memoryTypes.getD i default).propertyFlags &&& properties = properties

instance (memoryTypes : List VkMemoryType) (typeFilter properties i : Nat) :
    Decidable (memoryTypeMatches memoryTypes typeFilter properties i) := by
  unfold memoryTypeMatches; infer_instance

/-- `VulkanCommandPool::bindVertexBuffers` (VulkanCommandPool.cpp:217-228):
throws when the parallel buffer/offset lists disagree in length, otherwise
records a `vkCmdBindVertexBuffers` (which returns no status). -/
def bindVertexBuffers (buffers : List Nat) (offsets : List Nat) : Except String Unit :=
  if buffers.length ≠ offsets.length then
    Except.error "Number of vertex buffers must match number of offsets"
  else
    Except.ok ()

/-- A `VkFence`, reduced to the one bit of state the core reads: signaled or not. -/
structure VkFence where
  signaled : Bool
deriving DecidableEq, Repr, Inhabited

/-- `VulkanSynchronization::createFenceInternal` (VulkanSynchronization.cpp:299-315):
creates a fence, signaled when requested via `VK_FENCE_CREATE_SIGNALED_BIT`. -/
def createFenceInternal (signaled : Bool) : VkFence :=
  { signaled := signaled }

/-- `VulkanSynchronization::FrameSyncObjects`: the per-slot semaphore pair and
in-flight fence.  Semaphore handles are opaque; modelled as distinct naturals. -/
structure FrameSyncObjects where
  imageAvailableSemaphore : Nat
  renderFinishedSemaphore : Nat
  inFlightFence : VkFence
deriving DecidableEq, Repr, Inhabited

/-- The state of a `VulkanSynchronization` object after `create`. -/
structure VulkanSynchronization where
  maxFramesInFlight : Nat
  frameSyncObjects : List FrameSyncObjects
deriving DecidableEq, Repr

/-- `VulkanSynchronization::create` (VulkanSynchronization.cpp:17-47): one
semaphore pair per slot plus an in-flight fence created in the signaled state
(`createFenceInternal(device, true, ...)`, line 40). -/
def VulkanSynchronization.create (maxFramesInFlight : Nat) : VulkanSynchronization :=
  { maxFramesInFlight := maxFramesInFlight
    frameSyncObjects := (List.range maxFramesInFlight).map fun i =>
      { imageAvailableSemaphore := 2 * i
        renderFinishedSemaphore := 2 * i + 1
        inFlightFence := createFenceInternal true } }

/-- Backend model of `vkWaitForFences` on a single fence with the engine's
effectively unbounded timeout: a wait on an already-signaled fence completes
immediately with `VK_SUCCESS`; otherwise the outcome (GPU progress, timeout,
device loss) is external and supplied by `backendResult`. -/
def vkWaitForFences (fence : VkFence) (backendResult : VkResult) : VkResult :=
  if fence.signaled then VkResult.success else backendResult

/-- `VulkanSynchronization::waitForFrame` (VulkanSynchronization.cpp:49-66):
range-check the index (throw on a caller bug), then wait; `VK_SUCCESS → true`,
`VK_TIMEOUT → false`, anything else throws via `VK_CHECK`. -/
def VulkanSynchronization.waitForFrame (s : VulkanSynchronization)
    (frameIndex : Nat) (backendResult : VkResult) : Except String Bool :=
  if h : frameIndex < s.frameSyncObjects.length then
    let fence := (s.frameSyncObjects.get ⟨frameIndex, h⟩).inFlightFence
    let result := vkWaitForFences fence backendResult
    if result = VkResult.success then
      Except.ok true
    else if result = VkResult.timeout then
      Except.ok false
    else
      Except.error "Failed to wait for frame fence"
  else
    Except.error "Frame index out of range"

/-- `VulkanSynchronization::resetFrameFence` (VulkanSynchronization.cpp:68-75):
range-check, then `vkResetFences`, which clears the fence to unsignaled;
`VK_CHECK` throws when the backend reports a failure. -/
def VulkanSynchronization.resetFrameFence (s : VulkanSynchronization)
    (frameIndex : Nat) (backendResult : VkResult) : Except String VulkanSynchronization :=
  if h : frameIndex < s.frameSyncObjects.length then
    if backendResult = VkResult.success then
      let old := s.frameSyncObjects.get ⟨frameIndex, h⟩
      Except.ok { s with frameSyncObjects :=
        s.frameSyncObjects.set frameIndex { old with inFlightFence := createFenceInternal false } }
    else
      Except.error "Failed to reset frame fence"
  else
    Except.error "Frame index out of range"

/-- `VulkanSynchronization::getFrameSyncObjects` (VulkanSynchronization.cpp:266-271). -/
def VulkanSynchronization.getFrameSyncObjects (s : VulkanSynchronization)
    (frameIndex : Nat) : Except String FrameSyncObjects :=
  if h : frameIndex < s.frameSyncObjects.length then
    Except.ok (s.frameSyncObjects.get ⟨frameIndex, h⟩)
  else
    Except.error "Frame index out of range"

/-- `VulkanSynchronization::getImageAvailableSemaphore` (VulkanSynchronization.cpp:273-275). -/
def VulkanSynchronization.getImageAvailableSemaphore (s : VulkanSynchronization)
    (frameIndex : Nat) : Except String Nat :=
  (s.getFrameSyncObjects frameIndex).map (·.imageAvailableSemaphore)

/-- `VulkanSynchronization::getRenderFinishedSemaphore` (VulkanSynchronization.cpp:277-279). -/
def VulkanSynchronization.getRenderFinishedSemaphore (s : VulkanSynchronization)
    (frameIndex : Nat) : Except String Nat :=
  (s.getFrameSyncObjects frameIndex).map (·.renderFinishedSemaphore)

/-- `VulkanSynchronization::getInFlightFence` (VulkanSynchronization.cpp:281-283). -/
def VulkanSynchronization.getInFlightFence (s : VulkanSynchronization)
    (frameIndex : Nat) : Except String VkFence :=
  (s.getFrameSyncObjects frameIndex).map (·.inFlightFence)

/-- `VulkanSynchronization::submitCommandBuffers` (VulkanSynchronization.cpp:147-178):
the wait-semaphore/wait-stage length check comes first and throws on mismatch;
only then is `vkQueueSubmit` issued, whose backend result `VK_CHECK` checks. -/
def VulkanSynchronization.submitCommandBuffers (commandBuffers : List Nat)
    (waitSemaphores : List Nat) (waitStages : List Nat) (signalSemaphores : List Nat)
    (fence : VkFence) (backendResult : VkResult) : Except String Unit :=
  if waitSemaphores.length ≠ waitStages.length then
    Except.error "Number of wait semaphores must match number of wait stages"
  else if backendResult = VkResult.success then
    Except.ok ()
  else
    Except.error "Failed to submit command buffers to queue"

/-- `VulkanSynchronization::presentImage` (VulkanSynchronization.cpp:180-199):
builds the present info and returns `vkQueuePresentKHR`'s result unchecked. -/
def VulkanSynchronization.presentImage (imageIndex : Nat)
    (waitSemaphores : List Nat) (backendResult : VkResult) : VkResult :=
  backendResult

/-- `VulkanEngine::InitializationState` (VulkanEngine.h:38-52). -/
inductive InitState where
  | notInitializedState
  | instanceCreated
  | surfaceCreated
  | deviceCreated
  | swapchainCreated
  | renderPassCreated
  | pipelineCreated
  | descriptorsCreated
  | buffersCreated
  | commandPoolCreated
  | synchronizationCreated
  | characterLoaded
  | fullyInitializedState
deriving DecidableEq, Repr

/-- `MAX_FRAMES_IN_FLIGHT` (Common.h:45). -/
def MAX_FRAMES_IN_FLIGHT : Nat := 2

/-- The fields of `VulkanEngine` that `render` reads or writes
(VulkanEngine.h:232-240).  Swapchain-dependent GPU objects are opaque;
`swapchainGeneration` counts how many times the chain has been recreated.
`m_lastFrameTime` (wall-clock) is not modelled. -/
structure VulkanEngineState where
  initState : InitState
  windowWidth : Nat
  windowHeight : Nat
  currentFrame : Nat
  frameCount : Nat
  synchronization : VulkanSynchronization
  commandBuffers : List Nat
  swapchainGeneration : Nat
deriving DecidableEq, Repr

/-- `VulkanEngine::recreateSwapchain` (VulkanEngine.cpp:636-678): waits for the
device to go idle, destroys the render pass, pipeline, depth buffer and
swapchain, and recreates them at the current window size.  Those GPU objects
are opaque here, so recreation is modelled as bumping the generation counter;
frame counters and synchronization objects are untouched (the function never
mentions them). -/
def VulkanEngineState.recreateSwapchain (s : VulkanEngineState) : VulkanEngineState :=
  { s with swapchainGeneration := s.swapchainGeneration + 1 }

/-- The backend (driver) outcome of each Vulkan call one `render` pass makes.
These are external to the program: the embedding takes them as inputs. -/
structure RenderEnv where
  waitResult : VkResult
  acquireResult : VkResult
  acquireImageIndex : Nat
  resetFencesResult : VkResult
  resetCommandBufferResult : VkResult
  submitResult : VkResult
  presentResult : VkResult
deriving DecidableEq, Repr

/-- Which steps of the per-frame protocol a `render` pass performed. -/
structure RenderTrace where
  waitedForFence : Bool
  acquiredImage : Bool
  fenceWasReset : Bool
  sceneUpdated : Bool
  uniformUpdated : Bool
  commandsRecorded : Bool
  submitted : Bool
  presented : Bool
  swapchainRecreated : Bool
deriving DecidableEq, Repr

/-- Trace of a pass that performed none of the steps. -/
def emptyTrace : RenderTrace :=
  { waitedForFence := false, acquiredImage := false, fenceWasReset := false
    sceneUpdated := false, uniformUpdated := false, commandsRecorded := false
    submitted := false, presented := false, swapchainRecreated := false }

/-- Trace after step 2 only (the fence wait). -/
def waitOnlyTrace : RenderTrace := { emptyTrace with waitedForFence := true }

/-- Trace after steps 2-3 (wait, acquire). -/
def acquireTrace : RenderTrace := { waitOnlyTrace with acquiredImage := true }

/-- Trace of an OUT_OF_DATE acquisition: wait, acquire, recreate, skip the frame. -/
def oodSkipTrace : RenderTrace := { acquireTrace with swapchainRecreated := true }

/-- Trace after step 4 (fence reset). -/
def resetTrace : RenderTrace := { acquireTrace with fenceWasReset := true }

/-- Trace after steps 5-6 (scene and uniform update). -/
def uniformTrace : RenderTrace := { resetTrace with sceneUpdated := true, uniformUpdated := true }

/-- Trace after step 7 (command buffer reset and re-record). -/
def recordTrace : RenderTrace := { uniformTrace with commandsRecorded := true }

/-- Trace after step 8 (queue submission). -/
def submitTrace : RenderTrace := { recordTrace with submitted := true }

/-- Trace after step 9 (presentation). -/
def presentTrace : RenderTrace := { submitTrace with presented := true }

/-- Trace of a full pass whose presentation reported OUT_OF_DATE or SUBOPTIMAL,
triggering recreation after the submission. -/
def presentRecreateTrace : RenderTrace := { presentTrace with swapchainRecreated := true }

/-- Outcome of the `try` block of `render`: the state as mutated so far, the
steps performed, and the exception text when one was thrown. -/
structure RenderOutcome where
  state : VulkanEngineState
  trace : RenderTrace
  thrown : Option String
deriving DecidableEq, Repr

/-- `VK_PIPELINE_STAGE_COLOR_ATTACHMENT_OUTPUT_BIT` (the engine's only wait stage). -/
def VK_PIPELINE_STAGE_COLOR_ATTACHMENT_OUTPUT_BIT : Nat := 1024

/-- VulkanEngine.cpp:232-234: `m_currentFrame = (m_currentFrame + 1) % MAX_FRAMES_IN_FLIGHT;
m_frameCount++;`. -/
def VulkanEngineState.advanceFrame (s : VulkanEngineState) : VulkanEngineState :=
  { s with currentFrame := (s.currentFrame + 1) % MAX_FRAMES_IN_FLIGHT
           frameCount := s.frameCount + 1 }

/-- The `try` block of `VulkanEngine::render` (VulkanEngine.cpp:161-239),
steps 2-9 of the per-frame protocol:
wait on the slot fence; acquire (OUT_OF_DATE → recreate and skip, other
non-success except SUBOPTIMAL → throw); reset the slot fence; update scene and
uniform data; reset and re-record the command buffer; submit; present
(OUT_OF_DATE or SUBOPTIMAL → recreate, other non-success → throw); advance
`currentFrame` mod `MAX_FRAMES_IN_FLIGHT` and increment `frameCount`. -/
def renderTry (env : RenderEnv) (s : VulkanEngineState) : RenderOutcome :=
  match s.synchronization.waitForFrame s.currentFrame env.waitResult with
  | Except.error e => ⟨s, waitOnlyTrace, some e⟩
  | Except.ok false => ⟨s, waitOnlyTrace, none⟩
  | Except.ok true =>
    match s.synchronization.getImageAvailableSemaphore s.currentFrame with
    | Except.error e => ⟨s, waitOnlyTrace, some e⟩
    | Except.ok imageAvailableSem =>
      if env.acquireResult = VkResult.errorOutOfDateKHR then
        ⟨s.recreateSwapchain, oodSkipTrace, none⟩
      else if env.acquireResult ≠ VkResult.success ∧ env.acquireResult ≠ VkResult.suboptimalKHR then
        ⟨s, acquireTrace, some "Failed to acquire swapchain image"⟩
      else
        match s.synchronization.resetFrameFence s.currentFrame env.resetFencesResult with
        | Except.error e => ⟨s, acquireTrace, some e⟩
        | Except.ok sync1 =>
          if env.resetCommandBufferResult ≠ VkResult.success then
            ⟨{ s with synchronization := sync1 }, uniformTrace, some "Failed to reset command buffer"⟩
          else
            match sync1.getRenderFinishedSemaphore s.currentFrame with
            | Except.error e => ⟨{ s with synchronization := sync1 }, recordTrace, some e⟩
            | Except.ok renderFinishedSem =>
              match sync1.getInFlightFence s.currentFrame with
              | Except.error e => ⟨{ s with synchronization := sync1 }, recordTrace, some e⟩
              | Except.ok inFlightFence =>
                match VulkanSynchronization.submitCommandBuffers
                    [s.commandBuffers.getD s.currentFrame 0]
                    [imageAvailableSem] [VK_PIPELINE_STAGE_COLOR_ATTACHMENT_OUTPUT_BIT]
                    [renderFinishedSem] inFlightFence env.submitResult with
                | Except.error e => ⟨{ s with synchronization := sync1 }, recordTrace, some e⟩
                | Except.ok _ =>
                  if VulkanSynchronization.presentImage env.acquireImageIndex
                        [renderFinishedSem] env.presentResult = VkResult.errorOutOfDateKHR ∨
                      VulkanSynchronization.presentImage env.acquireImageIndex
                        [renderFinishedSem] env.presentResult = VkResult.suboptimalKHR then
                    ⟨({ s with synchronization := sync1 } : VulkanEngineState).recreateSwapchain.advanceFrame,
                      presentRecreateTrace, none⟩
                  else if VulkanSynchronization.presentImage env.acquireImageIndex
                      [renderFinishedSem] env.presentResult ≠ VkResult.success then
                    ⟨{ s with synchronization := sync1 }, presentTrace, some "Failed to present swapchain image"⟩
                  else
                    ⟨({ s with synchronization := sync1 } : VulkanEngineState).advanceFrame,
                      presentTrace, none⟩

/-- `VulkanEngine::render` (VulkanEngine.cpp:149-251): refuse to render unless
fully initialized (before touching anything); return immediately on a zero-area
(minimized) window; otherwise run the `try` block, and on an exception attempt
one swapchain-recreation recovery (VulkanEngine.cpp:241-250; recovery itself is
chain recreation, which the model cannot fail). -/
def render (env : RenderEnv) (s : VulkanEngineState) :
    Except String (VulkanEngineState × RenderTrace) :=
  if s.initState ≠ InitState.fullyInitializedState then
    Except.error "Cannot render: engine not fully initialized"
  else if s.windowWidth = 0 ∨ s.windowHeight = 0 then
    Except.ok (s, emptyTrace)
  else
    let o := renderTry env s
    match o.thrown with
    | none => Except.ok (o.state, o.trace)
    | some _ =>
      Except.ok (o.state.recreateSwapchain, { o.trace with swapchainRecreated := true })

/-- Iterated `render` calls, keeping only the engine state. -/
def renderSteps (env : RenderEnv) : Nat → VulkanEngineState → Except String VulkanEngineState
  | 0, s => Except.ok s
  | n + 1, s =>
    match render env s with
    | Except.ok (s1, _) => renderSteps env n s1
    | Except.error e => Except.error e

/-- A backend environment in which every Vulkan call succeeds. -/
def successEnv : RenderEnv :=
  { waitResult := VkResult.success, acquireResult := VkResult.success
    acquireImageIndex := 0, resetFencesResult := VkResult.success
    resetCommandBufferResult := VkResult.success, submitResult := VkResult.success
    presentResult := VkResult.success }

/-- `successEnv` except that image acquisition reports `VK_ERROR_OUT_OF_DATE_KHR`. -/
def oodAcquireEnv : RenderEnv :=
  { successEnv with acquireResult := VkResult.errorOutOfDateKHR }

/-- A freshly initialized engine: fully initialized, a non-zero window, slot 0
current, zero frames rendered, a 2-slot sync set fresh from `create`, and one
command buffer per slot. -/
def freshEngine : VulkanEngineState :=
  { initState := InitState.fullyInitializedState
    windowWidth := 800, windowHeight := 600
    currentFrame := 0, frameCount := 0
    synchronization := VulkanSynchronization.create MAX_FRAMES_IN_FLIGHT
    commandBuffers := [10, 11]
    swapchainGeneration := 0 }

/-- A fully initialized engine whose window has been minimized to zero width. -/
def zeroAreaEngine : VulkanEngineState :=
  { freshEngine with windowWidth := 0 }

/-- A `VulkanSynchronization` with slot `i`'s in-flight fence cleared to
unsignaled — the state `resetFrameFence i` leaves behind on success. -/
def VulkanSynchronization.setSlotFenceUnsignaled (s : VulkanSynchronization)
    (i : Nat) : VulkanSynchronization :=
  let old := s.frameSyncObjects.getD i default
  { s with frameSyncObjects := s.frameSyncObjects.set i { old with inFlightFence := createFenceInternal false } }

theorem waitForFrame_ok_lt {s : VulkanSynchronization} {i : Nat} {r : VkResult} {b : Bool}
    (h : s.waitForFrame i r = Except.ok b) : i < s.frameSyncObjects.length := by
  unfold VulkanSynchronization.waitForFrame at h
  split at h
  · assumption
  · exact absurd h (by simp)

theorem getFrameSyncObjects_ok {s : VulkanSynchronization} {i : Nat}
    (h : i < s.frameSyncObjects.length) :
    s.getFrameSyncObjects i = Except.ok (s.frameSyncObjects.get ⟨i, h⟩) := by
  unfold VulkanSynchronization.getFrameSyncObjects
  rw [dif_pos h]

theorem getImageAvailableSemaphore_ok {s : VulkanSynchronization} {i : Nat}
    (h : i < s.frameSyncObjects.length) :
    s.getImageAvailableSemaphore i =
      Except.ok (s.frameSyncObjects.get ⟨i, h⟩).imageAvailableSemaphore := by
  unfold VulkanSynchronization.getImageAvailableSemaphore
  rw [getFrameSyncObjects_ok h]
  rfl

theorem getRenderFinishedSemaphore_ok {s : VulkanSynchronization} {i : Nat}
    (h : i < s.frameSyncObjects.length) :
    s.getRenderFinishedSemaphore i =
      Except.ok (s.frameSyncObjects.get ⟨i, h⟩).renderFinishedSemaphore := by
  unfold VulkanSynchronization.getRenderFinishedSemaphore
  rw [getFrameSyncObjects_ok h]
  rfl

theorem getInFlightFence_ok {s : VulkanSynchronization} {i : Nat}
    (h : i < s.frameSyncObjects.length) :
    s.getInFlightFence i = Except.ok (s.frameSyncObjects.get ⟨i, h⟩).inFlightFence := by
  unfold VulkanSynchronization.getInFlightFence
  rw [getFrameSyncObjects_ok h]
  rfl

theorem resetFrameFence_success {s : VulkanSynchronization} {i : Nat}
    (h : i < s.frameSyncObjects.length) :
    s.resetFrameFence i VkResult.success = Except.ok (s.setSlotFenceUnsignaled i) := by
  unfold VulkanSynchronization.resetFrameFence
  rw [dif_pos h, if_pos rfl]
  simp only [VulkanSynchronization.setSlotFenceUnsignaled]
  rw [List.getD_eq_getElem _ _ h]
  rfl

theorem renderTry_wait_timeout {env : RenderEnv} {s : VulkanEngineState}
    (h : s.synchronization.waitForFrame s.currentFrame env.waitResult = Except.ok false) :
    renderTry env s = ⟨s, waitOnlyTrace, none⟩ := by
  simp [renderTry, h]

theorem renderTry_acquire_ood {env : RenderEnv} {s : VulkanEngineState}
    (hw : s.synchronization.waitForFrame s.currentFrame env.waitResult = Except.ok true)
    (ha : env.acquireResult = VkResult.errorOutOfDateKHR) :
    renderTry env s = ⟨s.recreateSwapchain, oodSkipTrace, none⟩ := by
  have hlt := waitForFrame_ok_lt hw
  simp [renderTry, hw, getImageAvailableSemaphore_ok hlt, ha]

theorem renderTry_acquire_fatal {env : RenderEnv} {s : VulkanEngineState}
    (hw : s.synchronization.waitForFrame s.currentFrame env.waitResult = Except.ok true)
    (h1 : env.acquireResult ≠ VkResult.errorOutOfDateKHR)
    (h2 : env.acquireResult ≠ VkResult.success)
    (h3 : env.acquireResult ≠ VkResult.suboptimalKHR) :
    renderTry env s = ⟨s, acquireTrace, some "Failed to acquire swapchain image"⟩ := by
  have hlt := waitForFrame_ok_lt hw
  simp [renderTry, hw, getImageAvailableSemaphore_ok hlt, h1, h2, h3]

theorem renderTry_normal {env : RenderEnv} {s : VulkanEngineState}
    (hw : s.synchronization.waitForFrame s.currentFrame env.waitResult = Except.ok true)
    (hacq : env.acquireResult = VkResult.success ∨ env.acquireResult = VkResult.suboptimalKHR)
    (hrf : env.resetFencesResult = VkResult.success)
    (hrcb : env.resetCommandBufferResult = VkResult.success)
    (hsub : env.submitResult = VkResult.success)
    (hpres : env.presentResult = VkResult.success) :
    renderTry env s =
      ⟨({ s with synchronization :=
            s.synchronization.setSlotFenceUnsignaled s.currentFrame }).advanceFrame,
        presentTrace, none⟩ := by
  have hlt := waitForFrame_ok_lt hw
  have hlt2 : s.currentFrame <
      (s.synchronization.setSlotFenceUnsignaled s.currentFrame).frameSyncObjects.length := by
    simpa [VulkanSynchronization.setSlotFenceUnsignaled] using hlt
  rcases hacq with h | h <;>
    simp [renderTry, hw, getImageAvailableSemaphore_ok hlt, hrf, resetFrameFence_success hlt,
      getRenderFinishedSemaphore_ok hlt2, getInFlightFence_ok hlt2, hrcb, hsub, hpres, h,
      VulkanSynchronization.submitCommandBuffers, VulkanSynchronization.presentImage]

theorem renderTry_presented_advances {env : RenderEnv} {s : VulkanEngineState} {o : RenderOutcome}
    (h : renderTry env s = o) (hn : o.thrown = none) (hp : o.trace.presented = true) :
    o.state.currentFrame = (s.currentFrame + 1) % MAX_FRAMES_IN_FLIGHT ∧
    o.state.frameCount = s.frameCount + 1 := by
  unfold renderTry at h
  repeat' split at h
  all_goals subst h
  all_goals
    simp_all [waitOnlyTrace, acquireTrace, oodSkipTrace, resetTrace, uniformTrace, recordTrace,
      submitTrace, presentTrace, presentRecreateTrace, emptyTrace,
      VulkanEngineState.advanceFrame, VulkanEngineState.recreateSwapchain]

theorem render_eq_of_noThrow {env : RenderEnv} {s s' : VulkanEngineState} {t : RenderTrace}
    (hinit : s.initState = InitState.fullyInitializedState)
    (hww : s.windowWidth ≠ 0) (hwh : s.windowHeight ≠ 0)
    (h : renderTry env s = ⟨s', t, none⟩) :
    render env s = Except.ok (s', t) := by
  simp [render, hinit, hww, hwh, h]

theorem find?_eq_decide_mem {α : Type} [DecidableEq α] (l : List α) (c : α) :
    l.find? (fun m => m = c) = if c ∈ l then some c else none := by
  induction l with
  | nil => rfl
  | cons a l ih =>
    rw [List.find?_cons]
    by_cases h : a = c
    · subst h; simp
    · simp [h, ih, Ne.symm h]

/-- C5 (counterexample): with only `VK_PRESENT_MODE_IMMEDIATE_KHR` available —
so MAILBOX is absent — `choosePresentMode` selects IMMEDIATE, not the FIFO mode
the claimed two-level preference requires. -/
theorem choosePresentMode_two_level_counterexample :
    VkPresentModeKHR.mailboxKHR ∉ [VkPresentModeKHR.immediateKHR] ∧
    choosePresentMode [VkPresentModeKHR.immediateKHR] ≠ VkPresentModeKHR.fifoKHR := by
  decide

/-- C5 (amended): present-mode choice is a deterministic three-level preference:
MAILBOX if available, else IMMEDIATE if available, else FIFO. -/
theorem choosePresentMode_three_level (modes : List VkPresentModeKHR) :
    choosePresentMode modes =
      if VkPresentModeKHR.mailboxKHR ∈ modes then VkPresentModeKHR.mailboxKHR
      else if VkPresentModeKHR.immediateKHR ∈ modes then VkPresentModeKHR.immediateKHR
      else VkPresentModeKHR.fifoKHR := by
  unfold choosePresentMode
  rw [find?_eq_decide_mem, find?_eq_decide_mem]
  by_cases h1 : VkPresentModeKHR.mailboxKHR ∈ modes <;>
    by_cases h2 : VkPresentModeKHR.immediateKHR ∈ modes <;>
    simp [h1, h2]

/-- C8: the chosen swapchain image count is `minImageCount + 1` clamped to
`maxImageCount` when the maximum is positive, and exactly `minImageCount + 1`
when `maxImageCount = 0` (unlimited). -/
theorem chooseImageCount_spec (capabilities : VkSurfaceCapabilitiesKHR) :
    (0 < capabilities.maxImageCount →
      chooseImageCount capabilities =
        min (capabilities.minImageCount + 1) capabilities.maxImageCount) ∧
    (capabilities.maxImageCount = 0 →
      chooseImageCount capabilities = capabilities.minImageCount + 1) := by
  constructor <;> intro h <;> (simp only [chooseImageCount]; split <;> omega)

/-- Witness for C8 at concrete capabilities. -/
theorem chooseImageCount_spec_witness :
    chooseImageCount ⟨2, 3⟩ = min (2 + 1) 3 ∧ chooseImageCount ⟨2, 0⟩ = 2 + 1 :=
  ⟨(chooseImageCount_spec ⟨2, 3⟩).1 (by decide), (chooseImageCount_spec ⟨2, 0⟩).2 rfl⟩

/-- C9: logic errors are rejected by thrown errors at the API boundary:
`submitCommandBuffers` throws on a wait-semaphore/wait-stage length mismatch
(for every backend result, i.e. before any backend call), `bindVertexBuffers`
throws on a buffer/offset length mismatch, and `waitForFrame`/`resetFrameFence`
throw for every frame index ≥ the number of slots. -/
theorem logic_error_checks :
    (∀ (commandBuffers waitSemaphores waitStages signalSemaphores : List Nat)
       (fence : VkFence) (backendResult : VkResult),
       waitSemaphores.length ≠ waitStages.length →
       VulkanSynchronization.submitCommandBuffers commandBuffers waitSemaphores waitStages
           signalSemaphores fence backendResult =
         Except.error "Number of wait semaphores must match number of wait stages") ∧
    (∀ (buffers offsets : List Nat), buffers.length ≠ offsets.length →
       bindVertexBuffers buffers offsets =
         Except.error "Number of vertex buffers must match number of offsets") ∧
    (∀ (s : VulkanSynchronization) (i : Nat) (backendResult : VkResult),
       s.frameSyncObjects.length ≤ i →
       s.waitForFrame i backendResult = Except.error "Frame index out of range" ∧
       s.resetFrameFence i backendResult = Except.error "Frame index out of range") := by
  refine ⟨?_, ?_, ?_⟩
  · intro cbs ws wst ss f r h
    simp [VulkanSynchronization.submitCommandBuffers, h]
  · intro bufs offs h
    simp [bindVertexBuffers, h]
  · intro s i r h
    have hn : ¬ i < s.frameSyncObjects.length := by omega
    exact ⟨by simp [VulkanSynchronization.waitForFrame, hn],
           by simp [VulkanSynchronization.resetFrameFence, hn]⟩

/-- Witness for C9 at concrete mismatched and out-of-range inputs. -/
theorem logic_error_checks_witness :
    VulkanSynchronization.submitCommandBuffers [0] [1] [] [] (createFenceInternal true)
        VkResult.success =
      Except.error "Number of wait semaphores must match number of wait stages" ∧
    bindVertexBuffers [1, 2] [0] =
      Except.error "Number of vertex buffers must match number of offsets" ∧
    (VulkanSynchronization.create 2).waitForFrame 2 VkResult.success =
      Except.error "Frame index out of range" ∧
    (VulkanSynchronization.create 2).resetFrameFence 2 VkResult.success =
      Except.error "Frame index out of range" :=
  ⟨logic_error_checks.1 [0] [1] [] [] (createFenceInternal true) VkResult.success (by decide),
   logic_error_checks.2.1 [1, 2] [0] (by decide),
   (logic_error_checks.2.2 (VulkanSynchronization.create 2) 2 VkResult.success (by decide)).1,
   (logic_error_checks.2.2 (VulkanSynchronization.create 2) 2 VkResult.success (by decide)).2⟩

/-- C10: calling `render` on an engine that is not `FULLY_INITIALIZED` throws
immediately, for every backend environment and engine state — no step of the
per-frame protocol runs and no synchronization object, swapchain or buffer is
touched (the error is produced before any other field of the state is read). -/
theorem render_requires_full_init {env : RenderEnv} {s : VulkanEngineState}
    (h : s.initState ≠ InitState.fullyInitializedState) :
    render env s = Except.error "Cannot render: engine not fully initialized" := by
  simp [render, h]

/-- Witness for C10 on a not-yet-initialized engine. -/
theorem render_requires_full_init_witness :
    render successEnv { freshEngine with initState := InitState.notInitializedState } =
      Except.error "Cannot render: engine not fully initialized" :=
  render_requires_full_init (by decide)

theorem findMemoryTypeLoop_ok (memoryTypes : List VkMemoryType) (typeFilter properties : Nat) :
    ∀ (k i : Nat), findMemoryTypeLoop memoryTypes typeFilter properties k = Except.ok i →
      k ≤ i ∧ i - k < memoryTypes.length ∧
      (typeFilter &&& (1 <<< i) ≠ 0 ∧
        (memoryTypes.getD (i - k) default).propertyFlags &&& properties = properties) ∧
      ∀ j, k ≤ j → j < i →
        ¬(typeFilter &&& (1 <<< j) ≠ 0 ∧
          (memoryTypes.getD (j - k) default).propertyFlags &&& properties = properties) := by
  induction memoryTypes with
  | nil => intro k i h; simp [findMemoryTypeLoop] at h
  | cons t rest ih =>
    intro k i h
    unfold findMemoryTypeLoop at h
    split at h
    · rename_i hcond
      simp only [Except.ok.injEq] at h
      subst h
      refine ⟨Nat.le_refl _, by simp, ?_, ?_⟩
      · simpa [Nat.sub_self] using hcond
      · intro j hj1 hj2
        exact absurd hj2 (by omega)
    · rename_i hcond
      obtain ⟨hk, hlen, hcondi, hprev⟩ := ih (k + 1) i h
      refine ⟨by omega, by simp only [List.length_cons]; omega, ?_, ?_⟩
      · have hik : i - k = (i - (k + 1)) + 1 := by omega
        rw [hik, List.getD_cons_succ]
        exact hcondi
      · intro j hj1 hj2
        rcases Nat.eq_or_lt_of_le hj1 with heq | hlt
        · subst heq
          simpa [Nat.sub_self] using hcond
        · have h2 := hprev j (by omega) hj2
          have hjk : j - k = (j - (k + 1)) + 1 := by omega
          rw [hjk, List.getD_cons_succ]
          exact h2

theorem findMemoryTypeLoop_error (memoryTypes : List VkMemoryType) (typeFilter properties : Nat) :
    ∀ k, (∀ m, m < memoryTypes.length →
      ¬(typeFilter &&& (1 <<< (k + m)) ≠ 0 ∧
        (memoryTypes.getD m default).propertyFlags &&& properties = properties)) →
    findMemoryTypeLoop memoryTypes typeFilter properties k =
      Except.error "Failed to find suitable memory type for buffer" := by
  induction memoryTypes with
  | nil => intro k h; rfl
  | cons t rest ih =>
    intro k h
    unfold findMemoryTypeLoop
    rw [if_neg]
    · apply ih
      intro m hm
      have h2 := h (m + 1) (by simpa using Nat.succ_lt_succ hm)
      have hadd : k + (m + 1) = (k + 1) + m := by omega
      rw [hadd] at h2
      simpa using h2
    · have h0 := h 0 (by simp)
      simpa using h0

/-- C7: `findMemoryType` is a first-fit search: an `ok i` result means index `i`
is in range, bit `i` of the buffer's supported-types mask is set and memory type
`i` has every requested property flag, and no smaller index satisfies both; and
when no index satisfies both, it throws the descriptive error. -/
theorem findMemoryType_first_fit (memoryTypes : List VkMemoryType) (typeFilter properties : Nat) :
    (∀ i, findMemoryType memoryTypes typeFilter properties = Except.ok i →
      i < memoryTypes.length ∧ memoryTypeMatches memoryTypes typeFilter properties i ∧
      ∀ j, j < i → ¬ memoryTypeMatches memoryTypes typeFilter properties j) ∧
    ((∀ i, i < memoryTypes.length → ¬ memoryTypeMatches memoryTypes typeFilter properties i) →
      findMemoryType memoryTypes typeFilter properties =
        Except.error "Failed to find suitable memory type for buffer") := by
  constructor
  · intro i h
    obtain ⟨-, hlen, hcond, hprev⟩ :=
      findMemoryTypeLoop_ok memoryTypes typeFilter properties 0 i h
    rw [Nat.sub_zero] at hlen hcond
    refine ⟨hlen, hcond, fun j hj => ?_⟩
    have := hprev j (Nat.zero_le j) hj
    rw [Nat.sub_zero] at this
    exact this
  · intro h
    apply findMemoryTypeLoop_error
    intro m hm
    have h2 := h m hm
    simpa [memoryTypeMatches] using h2

/-- Witness for C7: on a two-type device the search skips a non-matching type 0
and returns type 1; an impossible request on a one-type device throws. -/
theorem findMemoryType_first_fit_witness :
    (1 < ([⟨1, 0⟩, ⟨3, 0⟩] : List VkMemoryType).length ∧
      memoryTypeMatches [⟨1, 0⟩, ⟨3, 0⟩] 3 3 1 ∧
      ∀ j, j < 1 → ¬ memoryTypeMatches [⟨1, 0⟩, ⟨3, 0⟩] 3 3 j) ∧
    findMemoryType [⟨1, 0⟩] 1 6 =
      Except.error "Failed to find suitable memory type for buffer" :=
  ⟨(findMemoryType_first_fit [⟨1, 0⟩, ⟨3, 0⟩] 3 3).1 1 rfl,
   (findMemoryType_first_fit [⟨1, 0⟩] 1 6).2 (by decide)⟩

/-- C6: `create n` creates every slot's in-flight fence already signaled, so on a
fresh sync set every `waitForFrame i` with `i < n` returns `true` immediately —
for every backend outcome, i.e. without waiting on any GPU progress. -/
theorem create_fences_start_signaled (n i : Nat) (backendResult : VkResult) (h : i < n) :
    ((VulkanSynchronization.create n).frameSyncObjects.getD i default).inFlightFence.signaled
        = true ∧
    (VulkanSynchronization.create n).waitForFrame i backendResult = Except.ok true := by
  have hlen : (VulkanSynchronization.create n).frameSyncObjects.length = n := by
    simp [VulkanSynchronization.create]
  have hlt : i < (VulkanSynchronization.create n).frameSyncObjects.length := by
    rw [hlen]; exact h
  constructor
  · rw [List.getD_eq_getElem _ _ hlt]
    simp [VulkanSynchronization.create, createFenceInternal]
  · unfold VulkanSynchronization.waitForFrame
    rw [dif_pos hlt]
    simp [VulkanSynchronization.create, vkWaitForFences, createFenceInternal]

/-- Witness for C6 on a fresh 2-slot set. -/
theorem create_fences_start_signaled_witness :
    ((VulkanSynchronization.create 2).frameSyncObjects.getD 1 default).inFlightFence.signaled
        = true ∧
    (VulkanSynchronization.create 2).waitForFrame 1 VkResult.errorDeviceLost = Except.ok true :=
  create_fences_start_signaled 2 1 VkResult.errorDeviceLost (by decide)

/-- C1: every render pass that completes steps 2-9 without an early return or an
exception (no exception thrown, presentation performed) advances the slot index
to (previous + 1) mod MAX_FRAMES_IN_FLIGHT and increments the frame counter by
exactly one; and on a freshly initialized engine with a 2-slot sync set, 10
`render` calls with no resize events and no failures end with frame counter 10
and slot index 0, with no exception. -/
theorem render_advance_spec :
    (∀ (env : RenderEnv) (s : VulkanEngineState) (o : RenderOutcome),
      renderTry env s = o → o.thrown = none → o.trace.presented = true →
        o.state.currentFrame = (s.currentFrame + 1) % MAX_FRAMES_IN_FLIGHT ∧
        o.state.frameCount = s.frameCount + 1) ∧
    (renderSteps successEnv 10 freshEngine).map (fun s => (s.frameCount, s.currentFrame)) =
      Except.ok (10, 0) := by
  constructor
  · intro env s o h hn hp
    exact renderTry_presented_advances h hn hp
  · rfl

/-- Witness for C1: the general advance law applied to the first frame of a
fresh engine under an all-success backend. -/
theorem render_advance_spec_witness :
    (renderTry successEnv freshEngine).state.currentFrame =
        (freshEngine.currentFrame + 1) % MAX_FRAMES_IN_FLIGHT ∧
    (renderTry successEnv freshEngine).state.frameCount = freshEngine.frameCount + 1 :=
  render_advance_spec.1 successEnv freshEngine (renderTry successEnv freshEngine) rfl rfl rfl

/-- C2: when image acquisition reports OUT_OF_DATE, `render` recreates the
swapchain and its dependents and skips the frame — counters not advanced, the
slot's fence not reset, nothing submitted or presented; a SUBOPTIMAL
acquisition continues rendering normally; any other non-success acquisition
result throws inside the frame protocol; and in the concrete scenario,
OUT_OF_DATE on call 5 leaves the counter at 4 and triggers recreation, after
which call 6 proceeds normally against the recreated chain. -/
theorem render_acquire_ood_spec :
    (∀ (env : RenderEnv) (s : VulkanEngineState),
      s.initState = InitState.fullyInitializedState →
      s.windowWidth ≠ 0 → s.windowHeight ≠ 0 →
      s.synchronization.waitForFrame s.currentFrame env.waitResult = Except.ok true →
      env.acquireResult = VkResult.errorOutOfDateKHR →
        render env s = Except.ok (s.recreateSwapchain, oodSkipTrace) ∧
        s.recreateSwapchain.frameCount = s.frameCount ∧
        s.recreateSwapchain.currentFrame = s.currentFrame ∧
        s.recreateSwapchain.synchronization = s.synchronization ∧
        oodSkipTrace.fenceWasReset = false ∧ oodSkipTrace.submitted = false ∧
        oodSkipTrace.presented = false ∧ oodSkipTrace.swapchainRecreated = true) ∧
    (∀ (env : RenderEnv) (s : VulkanEngineState),
      s.synchronization.waitForFrame s.currentFrame env.waitResult = Except.ok true →
      env.acquireResult = VkResult.suboptimalKHR →
      env.resetFencesResult = VkResult.success →
      env.resetCommandBufferResult = VkResult.success →
      env.submitResult = VkResult.success →
      env.presentResult = VkResult.success →
        (renderTry env s).thrown = none ∧ (renderTry env s).trace = presentTrace ∧
        (renderTry env s).state.frameCount = s.frameCount + 1) ∧
    (∀ (env : RenderEnv) (s : VulkanEngineState),
      s.synchronization.waitForFrame s.currentFrame env.waitResult = Except.ok true →
      env.acquireResult ≠ VkResult.errorOutOfDateKHR →
      env.acquireResult ≠ VkResult.success →
      env.acquireResult ≠ VkResult.suboptimalKHR →
        (renderTry env s).thrown = some "Failed to acquire swapchain image") ∧
    ((renderSteps successEnv 4 freshEngine).bind (fun s4 =>
        (render oodAcquireEnv s4).map (fun p =>
          (p.1.frameCount, p.1.currentFrame, p.1.swapchainGeneration, p.2.swapchainRecreated))) =
      Except.ok (4, 0, 1, true) ∧
    (renderSteps successEnv 4 freshEngine).bind (fun s4 =>
        (render oodAcquireEnv s4).bind (fun p =>
          (render successEnv p.1).map (fun q =>
            (q.1.frameCount, q.1.currentFrame, q.2.presented)))) =
      Except.ok (5, 1, true)) := by
  refine ⟨?_, ?_, ?_, rfl, rfl⟩
  · intro env s hinit hww hwh hw ha
    refine ⟨render_eq_of_noThrow hinit hww hwh (renderTry_acquire_ood hw ha),
      rfl, rfl, rfl, rfl, rfl, rfl, rfl⟩
  · intro env s hw ha hrf hrcb hsub hpres
    rw [renderTry_normal hw (Or.inr ha) hrf hrcb hsub hpres]
    exact ⟨rfl, rfl, rfl⟩
  · intro env s hw h1 h2 h3
    rw [renderTry_acquire_fatal hw h1 h2 h3]

/-- Witness for C2: acquisition reports OUT_OF_DATE on a fresh engine — the
chain is recreated and the frame skipped. -/
theorem render_acquire_ood_spec_witness :
    render oodAcquireEnv freshEngine =
      Except.ok (freshEngine.recreateSwapchain, oodSkipTrace) :=
  (render_acquire_ood_spec.1 oodAcquireEnv freshEngine rfl (by decide) (by decide) rfl rfl).1

/-- C3 (counterexample): on a fully initialized engine minimized to zero width,
`render` returns with the state unchanged and an empty trace: the frame counter
stays 0 and the slot index stays 0 — the source does NOT increment them after a
zero-area early return, contrary to the claim. -/
theorem render_zero_area_counterexample :
    render successEnv zeroAreaEngine = Except.ok (zeroAreaEngine, emptyTrace) ∧
    zeroAreaEngine.frameCount = 0 ∧ zeroAreaEngine.currentFrame = 0 := by
  exact ⟨rfl, rfl, rfl⟩

/-- C3 (amended): a render call that returns early because the window area is
zero leaves the whole engine state — frame-slot index and frame counter
included — unchanged and performs no step of the frame protocol. -/
theorem render_zero_area_no_increment (env : RenderEnv) (s : VulkanEngineState)
    (hinit : s.initState = InitState.fullyInitializedState)
    (h : s.windowWidth = 0 ∨ s.windowHeight = 0) :
    render env s = Except.ok (s, emptyTrace) := by
  rcases h with h | h <;> simp [render, hinit, h]

/-- Witness for the amended C3 on a concrete minimized engine. -/
theorem render_zero_area_no_increment_witness :
    render oodAcquireEnv zeroAreaEngine = Except.ok (zeroAreaEngine, emptyTrace) :=
  render_zero_area_no_increment oodAcquireEnv zeroAreaEngine rfl (Or.inl rfl)

/-- C4: when the slot wait reports timeout (`waitForFrame` returns `false`),
`render` returns immediately with the state unchanged — counters not advanced,
fence not reset — and without acquiring, updating uniforms, recording,
submitting or presenting; and `waitForFrame` itself returns `true` on
`VK_SUCCESS`, `false` (without throwing) on `VK_TIMEOUT`, and throws only on
any other backend result. -/
theorem render_wait_timeout_spec :
    (∀ (env : RenderEnv) (s : VulkanEngineState),
      s.initState = InitState.fullyInitializedState →
      s.windowWidth ≠ 0 → s.windowHeight ≠ 0 →
      s.synchronization.waitForFrame s.currentFrame env.waitResult = Except.ok false →
        render env s = Except.ok (s, waitOnlyTrace) ∧
        waitOnlyTrace.acquiredImage = false ∧ waitOnlyTrace.fenceWasReset = false ∧
        waitOnlyTrace.uniformUpdated = false ∧ waitOnlyTrace.commandsRecorded = false ∧
        waitOnlyTrace.submitted = false ∧ waitOnlyTrace.presented = false) ∧
    (∀ (s : VulkanSynchronization) (i : Nat) (backendResult : VkResult)
        (h : i < s.frameSyncObjects.length),
      (vkWaitForFences (s.frameSyncObjects.get ⟨i, h⟩).inFlightFence backendResult =
          VkResult.success → s.waitForFrame i backendResult = Except.ok true) ∧
      (vkWaitForFences (s.frameSyncObjects.get ⟨i, h⟩).inFlightFence backendResult =
          VkResult.timeout → s.waitForFrame i backendResult = Except.ok false) ∧
      (vkWaitForFences (s.frameSyncObjects.get ⟨i, h⟩).inFlightFence backendResult ≠
          VkResult.success →
       vkWaitForFences (s.frameSyncObjects.get ⟨i, h⟩).inFlightFence backendResult ≠
          VkResult.timeout →
        s.waitForFrame i backendResult = Except.error "Failed to wait for frame fence")) := by
  constructor
  · intro env s hinit hww hwh hw
    exact ⟨render_eq_of_noThrow hinit hww hwh (renderTry_wait_timeout hw),
      rfl, rfl, rfl, rfl, rfl, rfl⟩
  · intro s i backendResult h
    refine ⟨?_, ?_, ?_⟩
    · intro hr
      simp only [List.get_eq_getElem] at hr
      unfold VulkanSynchronization.waitForFrame
      rw [dif_pos h]
      simp [hr]
    · intro hr
      simp only [List.get_eq_getElem] at hr
      unfold VulkanSynchronization.waitForFrame
      rw [dif_pos h]
      simp [hr]
    · intro hr1 hr2
      simp only [List.get_eq_getElem] at hr1 hr2
      unfold VulkanSynchronization.waitForFrame
      rw [dif_pos h]
      simp [hr1, hr2]

/-- Witness for C4: a timed-out wait on a slot whose fence is pending skips the
frame with the state untouched, and a successful wait on a fresh set returns
`true`. -/
theorem render_wait_timeout_spec_witness :
    render { successEnv with waitResult := VkResult.timeout }
        { freshEngine with synchronization :=
            freshEngine.synchronization.setSlotFenceUnsignaled 0 } =
      Except.ok ({ freshEngine with synchronization :=
            freshEngine.synchronization.setSlotFenceUnsignaled 0 }, waitOnlyTrace) ∧
    (VulkanSynchronization.create 2).waitForFrame 0 VkResult.success = Except.ok true :=
  ⟨(render_wait_timeout_spec.1 { successEnv with waitResult := VkResult.timeout }
      { freshEngine with synchronization :=
          freshEngine.synchronization.setSlotFenceUnsignaled 0 }
      rfl (by decide) (by decide) rfl).1,
   ((render_wait_timeout_spec.2 (VulkanSynchronization.create 2) 0 VkResult.success
      (by decide)).1) rfl⟩

/-- Witness for the amended C5 at concrete mode lists. -/
theorem choosePresentMode_three_level_witness :
    choosePresentMode [VkPresentModeKHR.fifoKHR, VkPresentModeKHR.mailboxKHR] =
      VkPresentModeKHR.mailboxKHR ∧
    choosePresentMode [VkPresentModeKHR.fifoRelaxedKHR] = VkPresentModeKHR.fifoKHR := by
  constructor
  · rw [choosePresentMode_three_level]
    decide
  · rw [choosePresentMode_three_level]
    decide
